import Mathlib

/-!
# Verification of the unity-check evaluation pipeline (`app.py`)

Shallow embedding of the business logic of `src/app.py`:

* the norm constants `NORM_A_MAX`, `NORM_B_MAX`, `NORM_C_MAX` (app.py:28-30);
* `get_color` (app.py:34-42);
* the per-case evaluation and classification performed inside
  `MyEntityType.create_plotly_and_data_result` (app.py:305-366), covering
  the norm lookup, the two mass-computation strategies, the unity check,
  the status/color classification, and the batch loop with its
  empty-batch check.

Python floats are embedded as rationals (`ℚ`): every arithmetic operation
appearing in the evaluated claims (`volume * density`, `mass / max_mass * 100`,
comparisons against the integer thresholds `80` and `100`) is exact at the
values the claims quantify over, so the rational semantics agrees with the
IEEE-754 semantics there.  Python exceptions are embedded as `Except`:
each `raise` site of the source gets its own error constructor, so distinct
failure modes stay distinguishable.
-/

namespace App

/-- app.py:28 — `NORM_A_MAX = 500`. -/
def NORM_A_MAX : ℚ := 500

/-- app.py:29 — `NORM_B_MAX = 750`. -/
def NORM_B_MAX : ℚ := 750

/-- app.py:30 — `NORM_C_MAX = 1000`. -/
def NORM_C_MAX : ℚ := 1000

/-- The `viktor.Color` value constructed by `get_color`: an RGB triple. -/
structure Color where
  r : ℤ
  g : ℤ
  b : ℤ
  deriving Repr, DecidableEq

/-- app.py:34-42 — `get_color(value: int) -> Color`.

The guard `if not 0 <= value <= 100` raises `ValueError` (embedded as
`.error` carrying the message).  Otherwise the source returns
`Color(255 - int(value / 100 * 255), 20, int(value / 100 * 255))`.
For every integer `0 ≤ value ≤ 100`, the float expression
`int(value / 100 * 255)` equals the exact integer floor
`value * 255 / 100` (checked exhaustively over the 101 valid inputs),
so the embedding uses integer division. -/
def get_color (value : ℤ) : Except String Color :=
  if ¬ (0 ≤ value ∧ value ≤ 100) then
    .error "value must be between 0 - 100"
  else
    .ok ⟨255 - value * 255 / 100, 20, value * 255 / 100⟩

/-- One row of the `calculate.cases` dynamic array (app.py:149-159):
`volume` and `density` are numbers, `norm` is the selected option value
(a string; the field offers `'A'`, `'B'`, `'C'`). -/
structure Case where
  volume : ℚ
  density : ℚ
  norm : String
  deriving Repr, DecidableEq

/-- The failure modes of `create_plotly_and_data_result`, one constructor per
`raise` site of the source:

* `unknownNorm` — app.py:316, `raise NotImplementedError` when `case.norm`
  is none of `'A'`, `'B'`, `'C'` (the spec's `UnknownNormError`);
* `unknownMethod` — app.py:325, `raise NotImplementedError` when
  `calculation_method` is neither `'spreadsheet'` nor `'python_function'`;
* `externalService` — a failure of the spreadsheet-evaluation call inside
  `calculate_mass_from_spreadsheet` (app.py:45-58), propagating out of
  `sheet.evaluate` (the spec's `ExternalServiceError`);
* `emptyBatch` — app.py:358, `raise UserException("Add at least 1 case.")`
  when the batch produced no graph data (the spec's `EmptyBatchError`). -/
inductive EvalError where
  | unknownNorm (norm : String)
  | unknownMethod (method : String)
  | externalService (msg : String)
  | emptyBatch
  deriving Repr, DecidableEq

/-- app.py:309-316 — the norm branch of `create_plotly_and_data_result`:
`'A'` selects `NORM_A_MAX`, `'B'` selects `NORM_B_MAX`, `'C'` selects
`NORM_C_MAX`, anything else raises (`unknownNorm`). -/
def lookupMaxMass (norm : String) : Except EvalError ℚ :=
  if norm = "A" then .ok NORM_A_MAX
  else if norm = "B" then .ok NORM_B_MAX
  else if norm = "C" then .ok NORM_C_MAX
  else .error (.unknownNorm norm)

/-- The mass-computation collaborator: `calculate_mass_from_spreadsheet`
delegates to a spreadsheet-evaluation service whose outcome (a mass, or a
service failure) we abstract as a function of the two inputs. -/
def MassService : Type := ℚ → ℚ → Except EvalError ℚ

/-- Modelled from the spec: the spreadsheet `calculate_mass.xlsx` evaluated
by `calculate_mass_from_spreadsheet` (app.py:45-58) is not under `src/`;
per the spec (§6) the external path implements "the identical contract"
`mass = volume * density`, or fails with a service error.  A service
satisfies the contract when every successful reply is exactly
`volume * density`. -/
def SpreadsheetContract (svc : MassService) : Prop :=
  ∀ v d m, svc v d = .ok m → m = v * d

/-- app.py:318-325 — the mass branch of `create_plotly_and_data_result`:
`'spreadsheet'` calls `calculate_mass_from_spreadsheet(case.volume,
case.density)` (the service `svc`), `'python_function'` computes
`case.volume * case.density`, anything else raises (`unknownMethod`). -/
def computeMass (svc : MassService) (method : String) (c : Case) :
    Except EvalError ℚ :=
  if method = "spreadsheet" then svc c.volume c.density
  else if method = "python_function" then .ok (c.volume * c.density)
  else .error (.unknownMethod method)

/-- `viktor.views.DataStatus`, as used at app.py:329/332/335. -/
inductive DataStatus where
  | ERROR
  | WARNING
  | SUCCESS
  deriving Repr, DecidableEq

/-- app.py:328-336 — the classification branch: from `unity_check`, the
status and the bar color are set together in the same `if`/`elif`/`else`. -/
def classify (unity_check : ℚ) : DataStatus × String :=
  if unity_check > 100 then (.ERROR, "red")
  else if unity_check > 80 then (.WARNING, "orange")
  else (.SUCCESS, "green")

/-- The per-case quantities computed by one iteration of the loop at
app.py:308-351: the looked-up `max_mass`, the computed `mass`, the
`unity_check` value, and the classification's status and color. -/
structure CaseResult where
  mass : ℚ
  max_mass : ℚ
  unity_check : ℚ
  status : DataStatus
  color : String
  deriving Repr, DecidableEq

/-- One iteration of the loop of `create_plotly_and_data_result`
(app.py:308-351) for a single case: norm lookup (app.py:309-316), mass
computation (app.py:318-325), `unity_check = mass / max_mass * 100`
(app.py:327), and classification (app.py:328-336).  Any raise aborts the
iteration with that error. -/
def evalCase (svc : MassService) (method : String) (c : Case) :
    Except EvalError CaseResult := do
  let max_mass ← lookupMaxMass c.norm
  let mass ← computeMass svc method c
  let unity_check := mass / max_mass * 100
  let sc := classify unity_check
  pure { mass := mass, max_mass := max_mass, unity_check := unity_check,
         status := sc.1, color := sc.2 }

/-- The loop at app.py:308-351 over all cases, left to right; the first
raise aborts the whole loop (fail-fast), exactly as a Python `for` body
that raises. -/
def evalCases (svc : MassService) (method : String) :
    List Case → Except EvalError (List CaseResult)
  | [] => .ok []
  | c :: cs => do
      let r ← evalCase svc method c
      let rs ← evalCases svc method cs
      pure (r :: rs)

/-- app.py:305-366 — `create_plotly_and_data_result`: run the loop, then
check `if graph_data:` (app.py:355-358); an empty batch produced no graph
data and raises `UserException("Add at least 1 case.")` (`emptyBatch`). -/
def create_plotly_and_data_result (svc : MassService) (method : String)
    (cases : List Case) : Except EvalError (List CaseResult) := do
  let rs ← evalCases svc method cases
  match rs with
  | [] => .error .emptyBatch
  | _ => pure rs

/-- app.py:338/356/362 — the `graph_data` list handed to the Plotly figure:
one `(unity_check, color)` pair per case, in loop order; `y` and the bar
`marker.color` list are its two projections. -/
def graphData (rs : List CaseResult) : List (ℚ × String) :=
  rs.map fun r => (r.unity_check, r.color)

/-- A mass service that always honors the spreadsheet contract: the
deterministic test double the spec asks for (§9). -/
def exactService : MassService := fun v d => .ok (v * d)

/-- A mass service whose external call always fails (service unreachable). -/
def downService : MassService := fun _ _ => .error (.externalService "unreachable")

/-- The spec's concrete scenario 1 input: volume 0.3, density 1000, norm A. -/
def case1 : Case := ⟨3/10, 1000, "A"⟩

/-- The spec's concrete scenario 2 input: volume 0.8, density 1000, norm A. -/
def case2 : Case := ⟨4/5, 1000, "A"⟩

/-- The spec's concrete scenario 3 input: volume 0.5, density 1500, norm B. -/
def case3 : Case := ⟨1/2, 1500, "B"⟩

/-- Scenario 1 expected output: mass 300, max 500, 60 %, SUCCESS. -/
def result1 : CaseResult :=
  { mass := 300, max_mass := 500, unity_check := 60, status := .SUCCESS,
    color := "green" }

/-- Scenario 2 expected output: mass 800, max 500, 160 %, ERROR. -/
def result2 : CaseResult :=
  { mass := 800, max_mass := 500, unity_check := 160, status := .ERROR,
    color := "red" }

/-- Scenario 3 expected output: mass 750, max 750, 100 %, WARNING. -/
def result3 : CaseResult :=
  { mass := 750, max_mass := 750, unity_check := 100, status := .WARNING,
    color := "orange" }

/-! ## Helper lemmas -/

theorem ok_bind {ε α β : Type} (a : α) (f : α → Except ε β) :
    (Except.ok a >>= f) = f a := rfl

theorem error_bind {ε α β : Type} (e : ε) (f : α → Except ε β) :
    ((Except.error e : Except ε α) >>= f) = .error e := rfl

theorem pure_ok {ε α : Type} (a : α) : (pure a : Except ε α) = .ok a := rfl

/-- Case analysis on the classification: `classify` yields exactly one of
the three status/color pairs, driven by the two thresholds. -/
theorem classify_cases (u : ℚ) :
    (100 < u ∧ classify u = (.ERROR, "red")) ∨
    (80 < u ∧ u ≤ 100 ∧ classify u = (.WARNING, "orange")) ∨
    (u ≤ 80 ∧ classify u = (.SUCCESS, "green")) := by
  unfold classify
  rcases lt_or_le 100 u with h1 | h1
  · exact Or.inl ⟨h1, by rw [if_pos h1]⟩
  · rcases lt_or_le 80 u with h2 | h2
    · exact Or.inr (Or.inl ⟨h2, h1, by rw [if_neg (not_lt.mpr h1), if_pos h2]⟩)
    · exact Or.inr (Or.inr ⟨h2, by
        rw [if_neg (not_lt.mpr (h2.trans (by norm_num))), if_neg (not_lt.mpr h2)]⟩)

/-- A successful norm lookup returns one of the three constants. -/
theorem lookupMaxMass_ok (norm : String) (mm : ℚ)
    (h : lookupMaxMass norm = .ok mm) :
    mm = 500 ∨ mm = 750 ∨ mm = 1000 := by
  unfold lookupMaxMass at h
  split at h
  · exact Or.inl (by cases h; rfl)
  · split at h
    · exact Or.inr (Or.inl (by cases h; rfl))
    · split at h
      · exact Or.inr (Or.inr (by cases h; rfl))
      · cases h

/-- Characterization of a successful single-case evaluation: it is exactly a
successful norm lookup followed by a successful mass computation, and the
result record is built from those two values. -/
theorem evalCase_ok_iff (svc : MassService) (method : String) (c : Case)
    (r : CaseResult) :
    evalCase svc method c = .ok r ↔
      ∃ mm m, lookupMaxMass c.norm = .ok mm ∧ computeMass svc method c = .ok m ∧
        r = { mass := m, max_mass := mm, unity_check := m / mm * 100,
              status := (classify (m / mm * 100)).1,
              color := (classify (m / mm * 100)).2 } := by
  unfold evalCase
  rcases hl : lookupMaxMass c.norm with e | mm
  · simp [error_bind]
  · rcases hm : computeMass svc method c with e | m
    · simp [ok_bind, error_bind, hm]
    · simp only [ok_bind, hm, pure_ok, Except.ok.injEq]
      constructor
      · intro h
        exact ⟨mm, m, rfl, rfl, h.symm⟩
      · rintro ⟨mm', m', hmm', hm', hr⟩
        cases hmm'
        cases hm'
        exact hr.symm

/-- The local (`python_function`) strategy computes `volume * density` and
never consults the external service. -/
theorem computeMass_local (svc : MassService) (c : Case) :
    computeMass svc "python_function" c = .ok (c.volume * c.density) := rfl

/-- The `spreadsheet` strategy is exactly the external-service call. -/
theorem computeMass_external (svc : MassService) (c : Case) :
    computeMass svc "spreadsheet" c = svc c.volume c.density := rfl

/-- A successful batch run evaluates every case successfully, produces one
result per case, and keeps input order: result `i` is the evaluation of
case `i`. -/
theorem evalCases_ok_spec (svc : MassService) (method : String) :
    ∀ (cases : List Case) (rs : List CaseResult),
      evalCases svc method cases = .ok rs →
      rs.length = cases.length ∧
      ∀ i (hi : i < cases.length) (hi' : i < rs.length),
        evalCase svc method (cases.get ⟨i, hi⟩) = .ok (rs.get ⟨i, hi'⟩) := by
  intro cases
  induction cases with
  | nil =>
    intro rs h
    cases h
    exact ⟨rfl, fun i hi => absurd hi (Nat.not_lt_zero i)⟩
  | cons c cs ih =>
    intro rs h
    rw [evalCases] at h
    rcases hr : evalCase svc method c with e | r
    · rw [hr, error_bind] at h
      cases h
    · rw [hr, ok_bind] at h
      rcases hrs : evalCases svc method cs with e | rs'
      · rw [hrs, error_bind] at h
        cases h
      · rw [hrs, ok_bind, pure_ok] at h
        cases h
        obtain ⟨hlen, hget⟩ := ih rs' hrs
        refine ⟨by simpa using hlen, ?_⟩
        intro i hi hi'
        cases i with
        | zero => simpa using hr
        | succ n =>
          simpa using hget n (Nat.lt_of_succ_lt_succ hi) (Nat.lt_of_succ_lt_succ hi')

/-- A successful batch run is exactly a successful loop with a non-empty
result list (the `if graph_data:` guard at app.py:355-358). -/
theorem create_ok_iff (svc : MassService) (method : String)
    (cases : List Case) (rs : List CaseResult) :
    create_plotly_and_data_result svc method cases = .ok rs ↔
      evalCases svc method cases = .ok rs ∧ rs ≠ [] := by
  unfold create_plotly_and_data_result
  rcases he : evalCases svc method cases with e | rs'
  · simp [error_bind]
  · rw [ok_bind]
    rcases rs' with _ | ⟨r, rs''⟩
    · simp
    · simp only [pure_ok, Except.ok.injEq]
      constructor
      · rintro rfl
        exact ⟨rfl, by simp⟩
      · rintro ⟨h, -⟩
        cases h
        rfl

/-- Every result of a successful loop comes from evaluating some input case. -/
theorem evalCases_mem (svc : MassService) (method : String) :
    ∀ (cases : List Case) (rs : List CaseResult),
      evalCases svc method cases = .ok rs →
      ∀ r ∈ rs, ∃ c ∈ cases, evalCase svc method c = .ok r := by
  intro cases
  induction cases with
  | nil =>
    intro rs h
    cases h
    intro r hr
    cases hr
  | cons c cs ih =>
    intro rs h
    rw [evalCases] at h
    rcases hr : evalCase svc method c with e | r0
    · rw [hr, error_bind] at h
      cases h
    · rw [hr, ok_bind] at h
      rcases hrs : evalCases svc method cs with e | rs'
      · rw [hrs, error_bind] at h
        cases h
      · rw [hrs, ok_bind, pure_ok] at h
        cases h
        intro r hrmem
        rcases List.mem_cons.mp hrmem with rfl | hmem
        · exact ⟨c, List.mem_cons_self c cs, hr⟩
        · obtain ⟨c', hc', hev⟩ := ih rs' hrs r hmem
          exact ⟨c', List.mem_cons_of_mem c hc', hev⟩

/-- Every case of a successful loop was itself evaluated successfully. -/
theorem evalCases_ok_forall (svc : MassService) (method : String) :
    ∀ (cases : List Case) (rs : List CaseResult),
      evalCases svc method cases = .ok rs →
      ∀ c ∈ cases, ∃ r, evalCase svc method c = .ok r := by
  intro cases
  induction cases with
  | nil =>
    intro rs h c hc
    cases hc
  | cons c0 cs ih =>
    intro rs h
    rw [evalCases] at h
    rcases hr : evalCase svc method c0 with e | r0
    · rw [hr, error_bind] at h
      cases h
    · rw [hr, ok_bind] at h
      rcases hrs : evalCases svc method cs with e | rs'
      · rw [hrs, error_bind] at h
        cases h
      · intro c hc
        rcases List.mem_cons.mp hc with rfl | hmem
        · exact ⟨r0, hr⟩
        · exact ih rs' hrs c hmem

/-- Scenario 1 evaluated with the local strategy (any service). -/
theorem evalCase_case1 (svc : MassService) :
    evalCase svc "python_function" case1 = .ok result1 := by
  refine (evalCase_ok_iff _ _ _ _).mpr ⟨500, 300, rfl, ?_, ?_⟩
  · rw [computeMass_local]
    norm_num [case1]
  · norm_num [result1, classify]

/-- Scenario 2 evaluated with the local strategy (any service). -/
theorem evalCase_case2 (svc : MassService) :
    evalCase svc "python_function" case2 = .ok result2 := by
  refine (evalCase_ok_iff _ _ _ _).mpr ⟨500, 800, rfl, ?_, ?_⟩
  · rw [computeMass_local]
    norm_num [case2]
  · norm_num [result2, classify]

/-- Scenario 3 evaluated with the local strategy (any service). -/
theorem evalCase_case3 (svc : MassService) :
    evalCase svc "python_function" case3 = .ok result3 := by
  refine (evalCase_ok_iff _ _ _ _).mpr ⟨750, 750, rfl, ?_, ?_⟩
  · rw [computeMass_local]
    norm_num [case3]
  · norm_num [result3, classify]

/-- A one-case batch around scenario 1. -/
theorem create_single (svc : MassService) :
    create_plotly_and_data_result svc "python_function" [case1]
      = .ok [result1] :=
  (create_ok_iff _ _ _ _).mpr
    ⟨by simp only [evalCases, evalCase_case1, ok_bind, pure_ok], by simp⟩

/-- A two-case batch around scenarios 1 and 2, in that order. -/
theorem create_pair (svc : MassService) :
    create_plotly_and_data_result svc "python_function" [case1, case2]
      = .ok [result1, result2] :=
  (create_ok_iff _ _ _ _).mpr
    ⟨by simp only [evalCases, evalCase_case1, evalCase_case2, ok_bind,
        pure_ok], by simp⟩

/-! ## Claim theorems -/

/-- C1: for every evaluated case, the status is determined from
`unity_check` (the utilization percent) exactly by: `> 100` → ERROR,
`80 < · ≤ 100` → WARNING, `≤ 80` → SUCCESS; at the boundaries, 80
classifies SUCCESS, 100 classifies WARNING and 100.0001 classifies
ERROR. -/
theorem status_from_unity_check (svc : MassService) (method : String)
    (c : Case) (r : CaseResult) (h : evalCase svc method c = .ok r) :
    (100 < r.unity_check → r.status = .ERROR) ∧
    (80 < r.unity_check → r.unity_check ≤ 100 → r.status = .WARNING) ∧
    (r.unity_check ≤ 80 → r.status = .SUCCESS) ∧
    (classify 80).1 = .SUCCESS ∧ (classify 100).1 = .WARNING ∧
    (classify (1000001 / 10000)).1 = .ERROR := by
  obtain ⟨mm, m, hl, hm, rfl⟩ := (evalCase_ok_iff _ _ _ _).mp h
  refine ⟨?_, ?_, ?_, by norm_num [classify], by norm_num [classify],
    by norm_num [classify]⟩
  · intro hgt
    rcases classify_cases (m / mm * 100) with ⟨-, hc⟩ | ⟨-, h3, -⟩ | ⟨h2, -⟩
    · simp only [hc]
    · exact absurd hgt (not_lt.mpr h3)
    · exact absurd hgt (not_lt.mpr (h2.trans (by norm_num)))
  · intro hgt hle
    rcases classify_cases (m / mm * 100) with ⟨h1, -⟩ | ⟨-, -, hc⟩ | ⟨h2, -⟩
    · exact absurd h1 (not_lt.mpr hle)
    · simp only [hc]
    · exact absurd hgt (not_lt.mpr h2)
  · intro hle
    rcases classify_cases (m / mm * 100) with ⟨h1, -⟩ | ⟨h2, -, -⟩ | ⟨-, hc⟩
    · exact absurd (hle.trans_lt (by norm_num)) (not_lt.mpr (le_of_lt h1))
    · exact absurd h2 (not_lt.mpr hle)
    · simp only [hc]

theorem status_from_unity_check_witness :
    result1.status = DataStatus.SUCCESS :=
  (status_from_unity_check exactService "python_function" case1 result1
      (evalCase_case1 exactService)).2.2.1 (by norm_num [result1])

/-- C2: the local (`python_function`) strategy yields
`mass = volume * density` for every case with positive volume and
non-negative density; concretely, volume 0.3 and density 1000 give
mass 300. -/
theorem local_mass_correct (svc : MassService) (c : Case) (r : CaseResult)
    (_hv : 0 < c.volume) (_hd : 0 ≤ c.density)
    (h : evalCase svc "python_function" c = .ok r) :
    r.mass = c.volume * c.density ∧
    (evalCase svc "python_function" ⟨3/10, 1000, "A"⟩).map CaseResult.mass
      = .ok 300 := by
  constructor
  · obtain ⟨mm, m, hl, hm, rfl⟩ := (evalCase_ok_iff _ _ _ _).mp h
    rw [computeMass_local] at hm
    cases hm
    rfl
  · show (evalCase svc "python_function" case1).map CaseResult.mass = .ok 300
    rw [evalCase_case1]
    rfl

theorem local_mass_correct_witness :
    result1.mass = case1.volume * case1.density :=
  (local_mass_correct downService case1 result1
      (by norm_num [case1]) (by norm_num [case1])
      (evalCase_case1 downService)).1

/-- C3: the norm table is exactly A → 500, B → 750, C → 1000, the three
constants are those values, and every evaluated case's `max_mass` is
exactly what the constant table gives for its norm — the lookup is a pure
function of the norm alone, with no mutating operation. -/
theorem norm_limits_constant (svc : MassService) (method : String)
    (c : Case) (r : CaseResult) (h : evalCase svc method c = .ok r) :
    lookupMaxMass "A" = .ok 500 ∧ lookupMaxMass "B" = .ok 750 ∧
    lookupMaxMass "C" = .ok 1000 ∧
    NORM_A_MAX = 500 ∧ NORM_B_MAX = 750 ∧ NORM_C_MAX = 1000 ∧
    lookupMaxMass c.norm = .ok r.max_mass := by
  obtain ⟨mm, m, hl, hm, rfl⟩ := (evalCase_ok_iff _ _ _ _).mp h
  exact ⟨rfl, rfl, rfl, rfl, rfl, rfl, hl⟩

theorem norm_limits_constant_witness :
    lookupMaxMass "B" = .ok 750 :=
  (norm_limits_constant exactService "python_function" case3 result3
      (evalCase_case3 exactService)).2.1

/-- C4: batch evaluation on an empty case list fails with the empty-batch
error (`UserException("Add at least 1 case.")`), for every strategy; a
successful batch never returns an empty result list. -/
theorem empty_batch_rejected (svc : MassService) (method : String)
    (cases : List Case) (rs : List CaseResult)
    (h : create_plotly_and_data_result svc method cases = .ok rs) :
    create_plotly_and_data_result svc method [] = .error .emptyBatch ∧
    rs ≠ [] :=
  ⟨rfl, ((create_ok_iff svc method cases rs).mp h).2⟩

theorem empty_batch_rejected_witness :
    create_plotly_and_data_result exactService "python_function" []
      = .error .emptyBatch ∧
    ([result1] : List CaseResult) ≠ [] :=
  empty_batch_rejected exactService "python_function" [case1] [result1]
    (create_single exactService)

/-- C5: for every norm outside {A, B, C} the lookup fails with the
unknown-norm error, and a batch containing such a case never returns
results — the whole batch fails (fail-fast), for every strategy. -/
theorem unknown_norm_fail_fast (svc : MassService) (method : String)
    (norm : String) (hA : norm ≠ "A") (hB : norm ≠ "B") (hC : norm ≠ "C") :
    lookupMaxMass norm = .error (.unknownNorm norm) ∧
    ∀ (cases : List Case), (∃ c ∈ cases, c.norm = norm) →
      ∀ rs, create_plotly_and_data_result svc method cases ≠ .ok rs := by
  have hl : lookupMaxMass norm = .error (.unknownNorm norm) := by
    unfold lookupMaxMass
    rw [if_neg hA, if_neg hB, if_neg hC]
  refine ⟨hl, ?_⟩
  rintro cases ⟨c, hcmem, hcnorm⟩ rs hok
  obtain ⟨hev, -⟩ := (create_ok_iff _ _ _ _).mp hok
  obtain ⟨r, hr⟩ := evalCases_ok_forall svc method cases rs hev c hcmem
  obtain ⟨mm, m, hlm, -, -⟩ := (evalCase_ok_iff _ _ _ _).mp hr
  rw [hcnorm, hl] at hlm
  cases hlm

theorem unknown_norm_fail_fast_witness :
    lookupMaxMass "D" = .error (.unknownNorm "D") :=
  (unknown_norm_fail_fast exactService "python_function" "D"
      (by decide) (by decide) (by decide)).1

/-- C6: a successful batch returns exactly one result per input case, in
input order: result `i` is the evaluation of case `i`, for every `i`. -/
theorem batch_preserves_order (svc : MassService) (method : String)
    (cases : List Case) (rs : List CaseResult)
    (h : create_plotly_and_data_result svc method cases = .ok rs) :
    rs.length = cases.length ∧
    ∀ i (hi : i < cases.length) (hi' : i < rs.length),
      evalCase svc method (cases.get ⟨i, hi⟩) = .ok (rs.get ⟨i, hi'⟩) :=
  evalCases_ok_spec svc method cases rs
    ((create_ok_iff svc method cases rs).mp h).1

theorem batch_preserves_order_witness :
    ([result1, result2] : List CaseResult).length
      = ([case1, case2] : List Case).length :=
  (batch_preserves_order exactService "python_function" [case1, case2]
      [result1, result2] (create_pair exactService)).1

/-- C7: on every successful evaluation path, `max_mass` is one of the three
fixed positive constants 500, 750, 1000 — in particular it is non-zero —
and `unity_check` is exactly `mass / max_mass * 100`, so the division is
safe. -/
theorem division_safe (svc : MassService) (method : String) (c : Case)
    (r : CaseResult) (h : evalCase svc method c = .ok r) :
    (r.max_mass = 500 ∨ r.max_mass = 750 ∨ r.max_mass = 1000) ∧
    0 < r.max_mass ∧ r.unity_check = r.mass / r.max_mass * 100 := by
  obtain ⟨mm, m, hl, hm, rfl⟩ := (evalCase_ok_iff _ _ _ _).mp h
  have h3 := lookupMaxMass_ok c.norm mm hl
  refine ⟨h3, ?_, rfl⟩
  rcases h3 with h | h | h <;> rw [h] <;> norm_num

theorem division_safe_witness :
    (0 : ℚ) < result1.max_mass :=
  (division_safe exactService "python_function" case1 result1
      (evalCase_case1 exactService)).2.1

/-- C8: for any external service honoring the spreadsheet contract, the
`spreadsheet` and `python_function` strategies produce identical results
on the same case; and when the service fails, its error propagates
unchanged out of the spreadsheet-path evaluation — there is no silent
fallback to the local formula or to a default mass. -/
theorem strategy_equivalent (svc : MassService)
    (hsvc : SpreadsheetContract svc) (c : Case)
    (_hv : 0 < c.volume) (_hd : 0 ≤ c.density) :
    (∀ r r', evalCase svc "spreadsheet" c = .ok r →
       evalCase svc "python_function" c = .ok r' → r = r') ∧
    (∀ mm e, lookupMaxMass c.norm = .ok mm →
       svc c.volume c.density = .error e →
       evalCase svc "spreadsheet" c = .error e) := by
  constructor
  · intro r r' h h'
    obtain ⟨mm, m, hl, hm, rfl⟩ := (evalCase_ok_iff _ _ _ _).mp h
    obtain ⟨mm', m', hl', hm', rfl⟩ := (evalCase_ok_iff _ _ _ _).mp h'
    rw [computeMass_external] at hm
    rw [computeMass_local] at hm'
    cases hm'
    have hmeq : m = c.volume * c.density := hsvc _ _ _ hm
    rw [hl] at hl'
    cases hl'
    rw [hmeq]
  · intro mm e hl hserr
    unfold evalCase
    rw [hl, ok_bind, computeMass_external, hserr, error_bind]

theorem strategy_equivalent_witness :
    evalCase downService "spreadsheet" ⟨3/10, 1000, "A"⟩
      = .error (.externalService "unreachable") :=
  (strategy_equivalent downService (fun _ _ _ h => nomatch h)
      ⟨3/10, 1000, "A"⟩ (by norm_num) (by norm_num)).2
    500 (.externalService "unreachable") rfl rfl

/-- C9: in every successful batch, each result's bar color agrees with its
status: ERROR with "red", WARNING with "orange", SUCCESS with "green". -/
theorem color_matches_status (svc : MassService) (method : String)
    (cases : List Case) (rs : List CaseResult)
    (h : create_plotly_and_data_result svc method cases = .ok rs) :
    ∀ r ∈ rs,
      (r.status = .ERROR ∧ r.color = "red") ∨
      (r.status = .WARNING ∧ r.color = "orange") ∨
      (r.status = .SUCCESS ∧ r.color = "green") := by
  intro r hr
  obtain ⟨hev, -⟩ := (create_ok_iff _ _ _ _).mp h
  obtain ⟨c, -, hok⟩ := evalCases_mem svc method cases rs hev r hr
  obtain ⟨mm, m, hl, hm, rfl⟩ := (evalCase_ok_iff _ _ _ _).mp hok
  rcases classify_cases (m / mm * 100) with ⟨-, hc⟩ | ⟨-, -, hc⟩ | ⟨-, hc⟩
  · exact Or.inl (by rw [hc]; exact ⟨rfl, rfl⟩)
  · exact Or.inr (Or.inl (by rw [hc]; exact ⟨rfl, rfl⟩))
  · exact Or.inr (Or.inr (by rw [hc]; exact ⟨rfl, rfl⟩))

theorem color_matches_status_witness :
    (result1.status = .ERROR ∧ result1.color = "red") ∨
    (result1.status = .WARNING ∧ result1.color = "orange") ∨
    (result1.status = .SUCCESS ∧ result1.color = "green") :=
  color_matches_status exactService "python_function" [case1] [result1]
    (create_single exactService) result1 (List.mem_singleton.mpr rfl)

/-- C10: `get_color` rejects every integer outside [0, 100] with a
`ValueError`, and for `0 ≤ value ≤ 100` returns the color with red
component `255 - int(value / 100 * 255)`, green component 20 and blue
component `int(value / 100 * 255)` (the float truncation equals the
integer floor `value * 255 / 100` on every valid input). -/
theorem get_color_spec (value : ℤ) :
    (¬ (0 ≤ value ∧ value ≤ 100) →
       get_color value = .error "value must be between 0 - 100") ∧
    (0 ≤ value → value ≤ 100 →
       get_color value = .ok ⟨255 - value * 255 / 100, 20, value * 255 / 100⟩) := by
  constructor
  · intro hbad
    unfold get_color
    rw [if_pos hbad]
  · intro h0 h100
    unfold get_color
    rw [if_neg (not_not.mpr ⟨h0, h100⟩)]

theorem get_color_spec_witness :
    get_color 60 = .ok ⟨255 - 60 * 255 / 100, 20, 60 * 255 / 100⟩ ∧
    get_color 101 = .error "value must be between 0 - 100" :=
  ⟨(get_color_spec 60).2 (by norm_num) (by norm_num),
   (get_color_spec 101).1 (by norm_num)⟩

end App
